import Mathlib

/-!
Shallow embedding of the ics07-tendermint `ClientState` module
(`src/light-clients/ics07-tendermint/src/client_state.rs`) and proofs about
its operations: construction validation, header-driven update, freezing,
upgrade, the delay/height guard, and the protobuf conversion pair.

Durations and timestamps are modelled as nanosecond counts (`Nat`); heights
as pairs of revision number and revision height, lexicographically ordered,
as in the source.
-/

namespace Centauri

/-- Height: pair (revision_number, revision_height), ordered lexicographically
by revision number then revision height, mirroring the `Ord` impl used by the
source via `<`/`<=` on `Height`. -/
structure Height where
  revision_number : Nat
  revision_height : Nat
deriving DecidableEq, Repr

/-- Source `Height::zero()`: the (0, 0) sentinel. -/
def Height.zero : Height := ⟨0, 0⟩

/-- Strict lexicographic order on heights (revision number first). -/
def Height.lt (a b : Height) : Prop :=
  a.revision_number < b.revision_number ∨
    (a.revision_number = b.revision_number ∧ a.revision_height < b.revision_height)

instance (a b : Height) : Decidable (Height.lt a b) := by
  unfold Height.lt; infer_instance

/-- Non-strict lexicographic order on heights. -/
def Height.le (a b : Height) : Prop :=
  Height.lt a b ∨ a = b

instance (a b : Height) : Decidable (Height.le a b) := by
  unfold Height.le; infer_instance

/-- Source `Height::with_revision_height`: replace the revision height, keep the
revision number. -/
def Height.with_revision_height (h : Height) (revision_height : Nat) : Height :=
  { h with revision_height := revision_height }

/-- Source `Height::add(delta)`: add to the revision height, keep the revision
number. -/
def Height.add (h : Height) (delta : Nat) : Height :=
  { h with revision_height := h.revision_height + delta }

/-- Durations are nanosecond counts; `Duration::new(0, 0)` is `0`. -/
abbrev Duration := Nat

/-- The `ZERO_DURATION` constant. -/
def ZERO_DURATION : Duration := 0

/-- Timestamps are nanosecond counts since the epoch. -/
abbrev Timestamp := Nat

/-- Modelled from the spec: timestamps live in a bounded representable range
(the `Timestamp + Duration` addition in the ibc crate, which is not under
`src/`, returns an overflow error past the range); the bound itself is the
64-bit nanosecond range. -/
def timestampBound : Nat := 2 ^ 64

/-- Modelled from the spec: `Timestamp + Duration`, defined only when the sum
stays within the representable range, otherwise a timestamp overflow. -/
def Timestamp.addDuration (t : Timestamp) (d : Duration) : Option Timestamp :=
  if t + d < timestampBound then some (t + d) else none

/-- Source `TrustThreshold`: a fraction of voting power (numerator / denominator).
The field arithmetic lives outside `src/`; only the record shape and the
distinguished zero value are needed here. -/
structure TrustThreshold where
  numerator : Nat
  denominator : Nat
deriving DecidableEq, Repr

/-- Modelled from the spec: `TrustThreshold::ZERO`, the zero-threshold
sentinel that `ClientState::new` rejects. -/
def TrustThreshold.ZERO : TrustThreshold := ⟨0, 0⟩

/-- Modelled from the spec: chain identifier, an opaque string with an
embedded revision; `from_string`/`to_string` (in the ibc crate, not under
`src/`) are mutually inverse on identifiers. -/
structure ChainId where
  id : String
deriving DecidableEq, Repr

def ChainId.to_string (c : ChainId) : String := c.id

def ChainId.from_string (s : String) : ChainId := ⟨s⟩

/-- Modelled from the spec: one opaque commitment-proof format descriptor;
only membership in the `proof_specs` list matters to the core. -/
structure ProofSpec where
  tag : Nat
deriving DecidableEq, Repr

/-- Tendermint block header carried inside a signed header: the fields the
client-state update consults (`height`; the chain id of the header embeds a
revision number, recorded here as `chainRevision`). -/
structure TmBlockHeader where
  height : Nat
  chainRevision : Nat
deriving DecidableEq, Repr

/-- Source `SignedHeader`: wraps the block header. -/
structure SignedHeader where
  header : TmBlockHeader
deriving DecidableEq, Repr

/-- Source `Header` (client message): wraps the signed header. -/
structure Header where
  signed_header : SignedHeader
deriving DecidableEq, Repr

/-- The error constructors of the ics07 `Error` type that `client_state.rs`
uses, with their payloads. -/
inductive Error where
  | invalidTrustingPeriod (reason : String)
  | invalidUnbondingPeriod (reason : String)
  | validation (reason : String)
  | timestampOverflow
  | notEnoughTimeElapsed (current_time earliest_time : Timestamp)
  | notEnoughBlocksElapsed (current_height earliest_height : Height)
  | insufficientHeight (latest_height target_height : Height)
  | clientFrozen (frozen_height target_height : Height)
  | missingTrustingPeriod
  | missingUnbondingPeriod
  | missingMaxClockDrift
  | missingLatestHeight
  | invalidTrustThreshold (reason : String)
  | negativeTrustingPeriod
  | negativeUnbondingPeriod
  | negativeMaxClockDrift
deriving DecidableEq, Repr

/-- The error kind: which constructor (flex_error variant) an error was built
with, forgetting payloads. -/
inductive ErrorKind where
  | invalidTrustingPeriod
  | invalidUnbondingPeriod
  | validation
  | timestampOverflow
  | notEnoughTimeElapsed
  | notEnoughBlocksElapsed
  | insufficientHeight
  | clientFrozen
  | missingTrustingPeriod
  | missingUnbondingPeriod
  | missingMaxClockDrift
  | missingLatestHeight
  | invalidTrustThreshold
  | negativeTrustingPeriod
  | negativeUnbondingPeriod
  | negativeMaxClockDrift
deriving DecidableEq, Repr

def Error.kind : Error → ErrorKind
  | .invalidTrustingPeriod _ => .invalidTrustingPeriod
  | .invalidUnbondingPeriod _ => .invalidUnbondingPeriod
  | .validation _ => .validation
  | .timestampOverflow => .timestampOverflow
  | .notEnoughTimeElapsed _ _ => .notEnoughTimeElapsed
  | .notEnoughBlocksElapsed _ _ => .notEnoughBlocksElapsed
  | .insufficientHeight _ _ => .insufficientHeight
  | .clientFrozen _ _ => .clientFrozen
  | .missingTrustingPeriod => .missingTrustingPeriod
  | .missingUnbondingPeriod => .missingUnbondingPeriod
  | .missingMaxClockDrift => .missingMaxClockDrift
  | .missingLatestHeight => .missingLatestHeight
  | .invalidTrustThreshold _ => .invalidTrustThreshold
  | .negativeTrustingPeriod => .negativeTrustingPeriod
  | .negativeUnbondingPeriod => .negativeUnbondingPeriod
  | .negativeMaxClockDrift => .negativeMaxClockDrift

/-- Source `ClientState` (the `_phantom` marker carries no data and is dropped). -/
structure ClientState where
  chain_id : ChainId
  trust_level : TrustThreshold
  trusting_period : Duration
  unbonding_period : Duration
  max_clock_drift : Duration
  latest_height : Height
  proof_specs : List ProofSpec
  upgrade_path : List String
  frozen_height : Option Height
deriving DecidableEq, Repr

/-- Is a result `Ok`? -/
def isOk {α : Type} : Except Error α → Bool
  | .ok _ => true
  | .error _ => false

/-- Source `ClientState::new`: validates the trust parameters in source order and
builds the record with `frozen_height = None`. -/
def ClientState.new (chain_id : ChainId) (trust_level : TrustThreshold)
    (trusting_period unbonding_period max_clock_drift : Duration)
    (latest_height : Height) (proof_specs : List ProofSpec)
    (upgrade_path : List String) : Except Error ClientState :=
  if trusting_period ≤ 0 then
    .error (.invalidTrustingPeriod
      ("ClientState trusting period (" ++ toString trusting_period ++
        ") must be greater than zero"))
  else if unbonding_period ≤ 0 then
    .error (.invalidUnbondingPeriod
      ("ClientState unbonding period (" ++ toString unbonding_period ++
        ") must be greater than zero"))
  else if unbonding_period ≤ trusting_period then
    .error (.invalidTrustingPeriod
      ("ClientState trusting period (" ++ toString trusting_period ++
        ") must be smaller than unbonding period (" ++
        toString unbonding_period ++ ")"))
  else if Height.le latest_height Height.zero then
    .error (.validation "ClientState latest height must be greater than zero")
  else if trust_level = TrustThreshold.ZERO then
    .error (.validation "ClientState trust-level cannot be zero")
  else if proof_specs.isEmpty then
    .error (.validation "ClientState proof-specs cannot be empty")
  else
    .ok { chain_id, trust_level, trusting_period, unbonding_period,
          max_clock_drift, latest_height, proof_specs, upgrade_path,
          frozen_height := none }

/-- Source `ClientState::with_header`: replace the revision height of
`latest_height` with the header height, keeping the revision number. -/
def ClientState.with_header (cs : ClientState) (h : Header) : ClientState :=
  { cs with
    latest_height :=
      cs.latest_height.with_revision_height h.signed_header.header.height }

/-- Source `ClientState::with_frozen_height`: reject the zero sentinel, otherwise
freeze at exactly the given height. -/
def ClientState.with_frozen_height (cs : ClientState) (h : Height) :
    Except Error ClientState :=
  if h = Height.zero then
    .error (.validation "ClientState frozen height must be greater than zero")
  else
    .ok { cs with frozen_height := some h }

/-- Source `ClientState::reset`: zero out the custom trust fields before an
upgrade. -/
def ClientState.reset (cs : ClientState) : ClientState :=
  { cs with
    trusting_period := ZERO_DURATION
    trust_level := TrustThreshold.ZERO
    frozen_height := none
    max_clock_drift := ZERO_DURATION }

/-- Source `UpgradeOptions`. -/
structure UpgradeOptions where
  unbonding_period : Duration
deriving DecidableEq, Repr

/-- Source `ClientState::upgrade`: reset the custom fields, then install the new
height, unbonding period and chain id. -/
def ClientState.upgrade (cs : ClientState) (upgrade_height : Height)
    (upgrade_options : UpgradeOptions) (chain_id : ChainId) : ClientState :=
  let s := cs.reset
  { s with
    latest_height := upgrade_height
    unbonding_period := upgrade_options.unbonding_period
    chain_id := chain_id }

/-- Source `ClientState::verify_delay_passed`: the timestamp sum may overflow; then
the time bound is checked, then the block bound. -/
def ClientState.verify_delay_passed (current_time : Timestamp)
    (current_height : Height) (processed_time : Timestamp)
    (processed_height : Height) (delay_period_time : Duration)
    (delay_period_blocks : Nat) : Except Error Unit :=
  match Timestamp.addDuration processed_time delay_period_time with
  | none => .error .timestampOverflow
  | some earliest_time =>
    if ¬ (current_time = earliest_time ∨ earliest_time < current_time) then
      .error (.notEnoughTimeElapsed current_time earliest_time)
    else
      let earliest_height := processed_height.add delay_period_blocks
      if Height.lt current_height earliest_height then
        .error (.notEnoughBlocksElapsed current_height earliest_height)
      else
        .ok ()

/-- Source `ClientState::verify_height`: height gate then freeze gate. -/
def ClientState.verify_height (cs : ClientState) (height : Height) :
    Except Error Unit :=
  if Height.lt cs.latest_height height then
    .error (.insufficientHeight cs.latest_height height)
  else
    match cs.frozen_height with
    | some frozen_height =>
      if Height.le frozen_height height then
        .error (.clientFrozen frozen_height height)
      else
        .ok ()
    | none => .ok ()

/-- The maximum of two heights, in the specification wording of the
header-update claim (for comparison against what the code computes). -/
def specHeightMax (a b : Height) : Height :=
  if Height.lt a b then b else a

/-- A concrete healthy client state used as a test fixture. -/
def baseState : ClientState :=
  { chain_id := ⟨"test-0"⟩
    trust_level := ⟨1, 3⟩
    trusting_period := 64000
    unbonding_period := 128000
    max_clock_drift := 3
    latest_height := ⟨0, 10⟩
    proof_specs := [⟨0⟩]
    upgrade_path := [""]
    frozen_height := none }

/-- A concrete frozen client state used as a test fixture. -/
def frozenState : ClientState :=
  { baseState with latest_height := ⟨0, 5⟩, frozen_height := some ⟨0, 3⟩ }

theorem Height.le_iff_not_lt (a b : Height) : Height.le a b ↔ ¬ Height.lt b a := by
  cases a with
  | mk an ah =>
    cases b with
    | mk bn bh =>
      simp only [Height.le, Height.lt, Height.mk.injEq]
      omega

theorem Height.lt_iff_not_le (a b : Height) : Height.lt a b ↔ ¬ Height.le b a := by
  rw [Height.le_iff_not_lt]
  exact not_not.symm

instance {ε α : Type} [DecidableEq ε] [DecidableEq α] :
    DecidableEq (Except ε α) := fun x y =>
  match x, y with
  | .ok a, .ok b =>
    if h : a = b then isTrue (by rw [h])
    else isFalse (by intro hc; cases hc; exact h rfl)
  | .error a, .error b =>
    if h : a = b then isTrue (by rw [h])
    else isFalse (by intro hc; cases hc; exact h rfl)
  | .ok _, .error _ => isFalse (by intro hc; cases hc)
  | .error _, .ok _ => isFalse (by intro hc; cases hc)

/-- C1: the claim fails on the code. Replaying a header for height 5 against
a client at height (0, 10) regresses `latest_height` to (0, 5); the code does
not take the maximum of the two heights (and it keeps the revision
number of the client state rather than that of the header). -/
theorem C1_counterexample :
    (Centauri.ClientState.with_header Centauri.baseState
        ⟨⟨⟨5, 0⟩⟩⟩).latest_height = ⟨0, 5⟩ ∧
    Centauri.specHeightMax Centauri.baseState.latest_height ⟨0, 5⟩ = ⟨0, 10⟩ ∧
    (⟨0, 5⟩ : Centauri.Height) ≠ ⟨0, 10⟩ := by
  decide

/-- C1 (amended): `with_header` unconditionally sets the resulting
`latest_height` to the pair (client revision number, header height): the
revision number is kept from the client state, not taken from the header, and
the revision height is overwritten even when this regresses the height. -/
theorem C1_with_header_sets_height (cs : ClientState) (h : Header) :
    (cs.with_header h).latest_height =
      ⟨cs.latest_height.revision_number, h.signed_header.header.height⟩ := rfl

/-- C2: the claim fails on the code. At a client whose latest height is
(0, 5) and frozen height is (0, 3), querying height (0, 10) fails with
`InsufficientHeight` even though the frozen height is ≤ the queried height,
so the error is not `ClientFrozen` exactly when `frozen_height ≤ h`. -/
theorem C2_counterexample :
    Centauri.Height.le ⟨0, 3⟩ ⟨0, 10⟩ ∧
    Centauri.ClientState.verify_height Centauri.frozenState ⟨0, 10⟩ =
      .error (.insufficientHeight ⟨0, 5⟩ ⟨0, 10⟩) ∧
    Centauri.Error.insufficientHeight ⟨0, 5⟩ ⟨0, 10⟩ ≠
      Centauri.Error.clientFrozen ⟨0, 3⟩ ⟨0, 10⟩ := by
  decide

/-- C2 (amended): `verify_height` succeeds iff `h ≤ latest_height` and
(`frozen_height` is `None` or `h <` the frozen height); on failure the error
is `InsufficientHeight` exactly when `latest_height < h`, and `ClientFrozen`
exactly when `h ≤ latest_height` and a frozen height exists with
`frozen_height ≤ h` (equality of `h` with `frozen_height` fails with
`ClientFrozen` provided `h ≤ latest_height`). -/
theorem C2_verify_height_characterization (cs : ClientState) (h : Height) :
    (isOk (cs.verify_height h) = true ↔
      (Height.le h cs.latest_height ∧
        (cs.frozen_height = none ∨
          ∃ f, cs.frozen_height = some f ∧ Height.lt h f))) ∧
    (∀ e, cs.verify_height h = .error e →
      (e.kind = ErrorKind.insufficientHeight ↔
        Height.lt cs.latest_height h)) ∧
    (∀ e, cs.verify_height h = .error e →
      (e.kind = ErrorKind.clientFrozen ↔
        (Height.le h cs.latest_height ∧
          ∃ f, cs.frozen_height = some f ∧ Height.le f h))) := by
  unfold ClientState.verify_height
  by_cases hlt : Height.lt cs.latest_height h
  · have hnle : ¬ Height.le h cs.latest_height := fun hle =>
      (Height.le_iff_not_lt h cs.latest_height).mp hle hlt
    rw [if_pos hlt]
    refine ⟨?_, ?_, ?_⟩
    · exact ⟨fun hc => (nomatch hc), fun hc => absurd hc.1 hnle⟩
    · intro e he
      have hee : e = Error.insufficientHeight cs.latest_height h := by
        injection he with h1; exact h1.symm
      subst hee
      exact ⟨fun _ => hlt, fun _ => rfl⟩
    · intro e he
      have hee : e = Error.insufficientHeight cs.latest_height h := by
        injection he with h1; exact h1.symm
      subst hee
      exact ⟨fun hk => (nomatch hk), fun hc => absurd hc.1 hnle⟩
  · have hle : Height.le h cs.latest_height :=
      (Height.le_iff_not_lt h cs.latest_height).mpr hlt
    rw [if_neg hlt]
    cases hf : cs.frozen_height with
    | none =>
      dsimp only
      refine ⟨?_, ?_, ?_⟩
      · exact ⟨fun _ => ⟨hle, Or.inl rfl⟩, fun _ => rfl⟩
      · intro e he; cases he
      · intro e he; cases he
    | some f =>
      dsimp only
      by_cases hfl : Height.le f h
      · rw [if_pos hfl]
        refine ⟨?_, ?_, ?_⟩
        · constructor
          · intro hc; exact nomatch hc
          · rintro ⟨-, hnone | ⟨g, hg, hgt⟩⟩
            · cases hnone
            · injection hg with hg
              subst hg
              exact absurd hfl ((Height.lt_iff_not_le h f).mp hgt)
        · intro e he
          have hee : e = Error.clientFrozen f h := by
            injection he with h1; exact h1.symm
          subst hee
          exact ⟨fun hk => (nomatch hk), fun hc => absurd hc hlt⟩
        · intro e he
          have hee : e = Error.clientFrozen f h := by
            injection he with h1; exact h1.symm
          subst hee
          exact ⟨fun _ => ⟨hle, f, rfl, hfl⟩, fun _ => rfl⟩
      · rw [if_neg hfl]
        refine ⟨?_, ?_, ?_⟩
        · exact ⟨fun _ =>
            ⟨hle, Or.inr ⟨f, rfl, (Height.lt_iff_not_le h f).mpr hfl⟩⟩,
            fun _ => rfl⟩
        · intro e he; cases he
        · intro e he; cases he

/-- C2 witness: at the frozen fixture and height (0, 4) the theorem applies;
the failure there is classified as `ClientFrozen`. -/
theorem C2_witness :
    (Centauri.Error.clientFrozen ⟨0, 3⟩ ⟨0, 4⟩).kind =
        Centauri.ErrorKind.clientFrozen ↔
      (Centauri.Height.le ⟨0, 4⟩ Centauri.frozenState.latest_height ∧
        ∃ f, Centauri.frozenState.frozen_height = some f ∧
          Centauri.Height.le f ⟨0, 4⟩) :=
  (C2_verify_height_characterization Centauri.frozenState ⟨0, 4⟩).2.2
    (Centauri.Error.clientFrozen ⟨0, 3⟩ ⟨0, 4⟩) (by decide)

/-- C3: under a defined timestamp sum, `verify_delay_passed` succeeds iff
both the time bound and the block bound are met; when only the time bound is
unmet it returns the time-not-elapsed error, and when only the block bound is
unmet it returns the blocks-not-elapsed error. -/
theorem C3_verify_delay_passed (current_time : Nat)
    (current_height : Height) (processed_time : Nat)
    (processed_height : Height) (delay_period_time : Nat)
    (delay_period_blocks : Nat)
    (hdef : processed_time + delay_period_time < timestampBound) :
    (isOk (ClientState.verify_delay_passed current_time current_height
        processed_time processed_height delay_period_time
        delay_period_blocks) = true ↔
      (processed_time + delay_period_time ≤ current_time ∧
        Height.le (processed_height.add delay_period_blocks)
          current_height)) ∧
    (current_time < processed_time + delay_period_time ∧
        Height.le (processed_height.add delay_period_blocks) current_height →
      ClientState.verify_delay_passed current_time current_height
          processed_time processed_height delay_period_time
          delay_period_blocks =
        .error (.notEnoughTimeElapsed current_time
          (processed_time + delay_period_time))) ∧
    (processed_time + delay_period_time ≤ current_time ∧
        ¬ Height.le (processed_height.add delay_period_blocks)
          current_height →
      ClientState.verify_delay_passed current_time current_height
          processed_time processed_height delay_period_time
          delay_period_blocks =
        .error (.notEnoughBlocksElapsed current_height
          (processed_height.add delay_period_blocks))) := by
  unfold ClientState.verify_delay_passed Timestamp.addDuration
  rw [if_pos hdef]
  dsimp only
  by_cases ht : current_time = processed_time + delay_period_time ∨
      processed_time + delay_period_time < current_time
  · rw [if_neg (not_not_intro ht)]
    by_cases hb : Height.lt current_height
        (processed_height.add delay_period_blocks)
    · rw [if_pos hb]
      refine ⟨?_, ?_, ?_⟩
      · constructor
        · intro hc; exact nomatch hc
        · rintro ⟨-, hble⟩
          exact absurd hb ((Height.le_iff_not_lt _ _).mp hble)
      · rintro ⟨hctlt, -⟩
        exact absurd hctlt (by rcases ht with h1 | h1 <;> omega)
      · intro hcon; rfl
    · rw [if_neg hb]
      have hble : Height.le (processed_height.add delay_period_blocks)
          current_height := (Height.le_iff_not_lt _ _).mpr hb
      refine ⟨?_, ?_, ?_⟩
      · exact ⟨fun hc =>
          ⟨by rcases ht with h1 | h1 <;> omega, hble⟩, fun hc => rfl⟩
      · rintro ⟨hctlt, -⟩
        exact absurd hctlt (by rcases ht with h1 | h1 <;> omega)
      · rintro ⟨-, hnble⟩
        exact absurd hble hnble
  · rw [if_pos ht]
    refine ⟨?_, ?_, ?_⟩
    · constructor
      · intro hc; exact nomatch hc
      · rintro ⟨hlet, -⟩
        exact absurd (by omega : current_time = processed_time +
          delay_period_time ∨ processed_time + delay_period_time <
            current_time) ht
    · intro hcon; rfl
    · rintro ⟨hlet, -⟩
      exact absurd (by omega : current_time = processed_time +
        delay_period_time ∨ processed_time + delay_period_time <
          current_time) ht

/-- C3 witness: the spec scenario — processed at time 1000 and height (0, 3),
delay 500ns and 2 blocks, current time 2000 and height (0, 5) — satisfies the
hypothesis and succeeds. -/
theorem C3_witness :
    Centauri.isOk (Centauri.ClientState.verify_delay_passed 2000 ⟨0, 5⟩ 1000
      ⟨0, 3⟩ 500 2) = true :=
  (C3_verify_delay_passed 2000 ⟨0, 5⟩ 1000 ⟨0, 3⟩ 500 2
    (by decide)).1.mpr ⟨by decide, by decide⟩

/-- C10: when the timestamp sum overflows, `verify_delay_passed` fails with
the timestamp-overflow error whatever the current time and height are (so
neither delay bound is consulted), and that error is a third kind distinct
from both delay errors. -/
theorem C10_timestamp_overflow (current_time : Nat)
    (current_height : Height) (processed_time : Nat)
    (processed_height : Height) (delay_period_time : Nat)
    (delay_period_blocks : Nat)
    (hof : Timestamp.addDuration processed_time delay_period_time = none) :
    ClientState.verify_delay_passed current_time current_height processed_time
        processed_height delay_period_time delay_period_blocks =
      .error .timestampOverflow ∧
    Error.timestampOverflow.kind ≠ ErrorKind.notEnoughTimeElapsed ∧
    Error.timestampOverflow.kind ≠ ErrorKind.notEnoughBlocksElapsed := by
  refine ⟨?_, by decide, by decide⟩
  unfold ClientState.verify_delay_passed
  rw [hof]

/-- C10 witness: one nanosecond past the largest representable timestamp
overflows, and the guard reports the overflow error there. -/
theorem C10_witness :
    Centauri.Timestamp.addDuration (Centauri.timestampBound - 1) 1 = none ∧
    Centauri.ClientState.verify_delay_passed 0 ⟨0, 0⟩
        (Centauri.timestampBound - 1) ⟨0, 0⟩ 1 0 =
      .error .timestampOverflow :=
  ⟨by decide,
    (C10_timestamp_overflow 0 ⟨0, 0⟩ (Centauri.timestampBound - 1) ⟨0, 0⟩ 1 0
      (by decide)).1⟩

/-- C5: `with_frozen_height` rejects the zero sentinel with a validation
error; for any non-zero height it freezes at exactly that height — whatever
`frozen_height` held before — and never clears the freeze back to `None`. -/
theorem C5_with_frozen_height (cs : ClientState) (h : Height) :
    (h = Height.zero →
      cs.with_frozen_height h =
        .error (.validation
          "ClientState frozen height must be greater than zero")) ∧
    (h ≠ Height.zero →
      cs.with_frozen_height h = .ok { cs with frozen_height := some h }) := by
  unfold ClientState.with_frozen_height
  constructor
  · intro hz; rw [if_pos hz]
  · intro hz; rw [if_neg hz]

/-- C5 witness: freezing the healthy fixture at the zero height fails, and
re-freezing the already-frozen fixture at (0, 7) installs exactly (0, 7). -/
theorem C5_witness :
    Centauri.ClientState.with_frozen_height Centauri.baseState
        Centauri.Height.zero =
      .error (.validation
        "ClientState frozen height must be greater than zero") ∧
    Centauri.ClientState.with_frozen_height Centauri.frozenState ⟨0, 7⟩ =
      .ok { Centauri.frozenState with frozen_height := some ⟨0, 7⟩ } :=
  ⟨(C5_with_frozen_height Centauri.baseState Centauri.Height.zero).1 rfl,
    (C5_with_frozen_height Centauri.frozenState ⟨0, 7⟩).2 (by decide)⟩

/-- C6: `upgrade` always yields the state with `frozen_height = None`,
`trusting_period` and `max_clock_drift` equal to the zero duration,
`trust_level = TrustThreshold::ZERO`, `latest_height` the upgrade height,
`unbonding_period` from the upgrade options, and the new chain id (the proof
specs and upgrade path are carried over). -/
theorem C6_upgrade (cs : ClientState) (uh : Height) (uo : UpgradeOptions)
    (cid : ChainId) :
    cs.upgrade uh uo cid =
      { chain_id := cid
        trust_level := TrustThreshold.ZERO
        trusting_period := ZERO_DURATION
        unbonding_period := uo.unbonding_period
        max_clock_drift := ZERO_DURATION
        latest_height := uh
        proof_specs := cs.proof_specs
        upgrade_path := cs.upgrade_path
        frozen_height := none } := rfl

/-- C9: `with_header` changes only `latest_height`: `frozen_height`,
`trust_level`, the periods and every other field keep their values. -/
theorem C9_with_header_frame (cs : ClientState) (h : Header) :
    (cs.with_header h).frozen_height = cs.frozen_height ∧
    (cs.with_header h).trust_level = cs.trust_level ∧
    (cs.with_header h).trusting_period = cs.trusting_period ∧
    (cs.with_header h).unbonding_period = cs.unbonding_period ∧
    (cs.with_header h).max_clock_drift = cs.max_clock_drift ∧
    (cs.with_header h).chain_id = cs.chain_id ∧
    (cs.with_header h).proof_specs = cs.proof_specs ∧
    (cs.with_header h).upgrade_path = cs.upgrade_path :=
  ⟨rfl, rfl, rfl, rfl, rfl, rfl, rfl, rfl⟩

theorem isEmpty_eq_true_iff {α : Type} (l : List α) :
    l.isEmpty = true ↔ l = [] := by
  cases l <;> simp [List.isEmpty]

/-- C4: the claim fails on the code. The five-plus rejection conditions do
not each carry their own error kind: a zero latest height and a zero trust
level are both reported through the same `Validation` kind. -/
theorem C4_counterexample :
    ClientState.new ⟨"test-0"⟩ ⟨1, 3⟩ 64000 128000 3 Height.zero
        [⟨0⟩] [""] =
      .error (.validation
        "ClientState latest height must be greater than zero") ∧
    ClientState.new ⟨"test-0"⟩ TrustThreshold.ZERO 64000 128000 3 ⟨0, 10⟩
        [⟨0⟩] [""] =
      .error (.validation "ClientState trust-level cannot be zero") ∧
    (Error.validation
      "ClientState latest height must be greater than zero").kind =
      (Error.validation "ClientState trust-level cannot be zero").kind := by
  refine ⟨by decide, by decide, rfl⟩

/-- C4 (amended): `new` succeeds iff `trusting_period > 0`,
`unbonding_period > 0`, `trusting_period < unbonding_period`,
`latest_height > Height::zero()`, `trust_level != TrustThreshold::ZERO` and
`proof_specs` non-empty; on success the record holds exactly the given
fields with `frozen_height = None`. The rejections carry only three distinct
error kinds: a non-positive trusting period and the inverted period ordering
both yield `InvalidTrustingPeriod`, a non-positive unbonding period yields
`InvalidUnbondingPeriod`, and the remaining three violations all yield the
`Validation` kind. -/
theorem C4_new_characterization (cid : ChainId) (tl : TrustThreshold)
    (tp ub mcd : Nat) (lh : Height) (ps : List ProofSpec)
    (up : List String) :
    (isOk (ClientState.new cid tl tp ub mcd lh ps up) = true ↔
      (0 < tp ∧ 0 < ub ∧ tp < ub ∧ Height.lt Height.zero lh ∧
        tl ≠ TrustThreshold.ZERO ∧ ps ≠ [])) ∧
    (∀ cs, ClientState.new cid tl tp ub mcd lh ps up = .ok cs →
      cs = { chain_id := cid, trust_level := tl, trusting_period := tp,
             unbonding_period := ub, max_clock_drift := mcd,
             latest_height := lh, proof_specs := ps, upgrade_path := up,
             frozen_height := none }) ∧
    (tp = 0 →
      ∃ e, ClientState.new cid tl tp ub mcd lh ps up = .error e ∧
        e.kind = ErrorKind.invalidTrustingPeriod) ∧
    (0 < tp ∧ ub = 0 →
      ∃ e, ClientState.new cid tl tp ub mcd lh ps up = .error e ∧
        e.kind = ErrorKind.invalidUnbondingPeriod) ∧
    (0 < tp ∧ 0 < ub ∧ ub ≤ tp →
      ∃ e, ClientState.new cid tl tp ub mcd lh ps up = .error e ∧
        e.kind = ErrorKind.invalidTrustingPeriod) ∧
    (0 < tp ∧ 0 < ub ∧ tp < ub ∧ Height.le lh Height.zero →
      ∃ e, ClientState.new cid tl tp ub mcd lh ps up = .error e ∧
        e.kind = ErrorKind.validation) ∧
    (0 < tp ∧ 0 < ub ∧ tp < ub ∧ Height.lt Height.zero lh ∧
        tl = TrustThreshold.ZERO →
      ∃ e, ClientState.new cid tl tp ub mcd lh ps up = .error e ∧
        e.kind = ErrorKind.validation) ∧
    (0 < tp ∧ 0 < ub ∧ tp < ub ∧ Height.lt Height.zero lh ∧
        tl ≠ TrustThreshold.ZERO ∧ ps = [] →
      ∃ e, ClientState.new cid tl tp ub mcd lh ps up = .error e ∧
        e.kind = ErrorKind.validation) := by
  unfold ClientState.new
  by_cases h1 : tp ≤ 0
  · rw [if_pos h1]
    refine ⟨?_, ?_, ?_, ?_, ?_, ?_, ?_, ?_⟩
    · exact ⟨fun hc => (nomatch hc), fun hc => by omega⟩
    · intro cs hcs; cases hcs
    · intro hcon; exact ⟨_, rfl, rfl⟩
    · rintro ⟨hc, -⟩; omega
    · rintro ⟨hc, -⟩; omega
    · rintro ⟨hc, -⟩; omega
    · rintro ⟨hc, -⟩; omega
    · rintro ⟨hc, -⟩; omega
  · rw [if_neg h1]
    by_cases h2 : ub ≤ 0
    · rw [if_pos h2]
      refine ⟨?_, ?_, ?_, ?_, ?_, ?_, ?_, ?_⟩
      · exact ⟨fun hc => (nomatch hc), fun hc => by omega⟩
      · intro cs hcs; cases hcs
      · intro hcon; omega
      · intro hcon; exact ⟨_, rfl, rfl⟩
      · rintro ⟨-, hc, -⟩; omega
      · rintro ⟨-, hc, -⟩; omega
      · rintro ⟨-, hc, -⟩; omega
      · rintro ⟨-, hc, -⟩; omega
    · rw [if_neg h2]
      by_cases h3 : ub ≤ tp
      · rw [if_pos h3]
        refine ⟨?_, ?_, ?_, ?_, ?_, ?_, ?_, ?_⟩
        · exact ⟨fun hc => (nomatch hc), fun hc => by omega⟩
        · intro cs hcs; cases hcs
        · intro hcon; omega
        · rintro ⟨-, hc⟩; omega
        · intro hcon; exact ⟨_, rfl, rfl⟩
        · rintro ⟨-, -, hc, -⟩; omega
        · rintro ⟨-, -, hc, -⟩; omega
        · rintro ⟨-, -, hc, -⟩; omega
      · rw [if_neg h3]
        by_cases h4 : Height.le lh Height.zero
        · rw [if_pos h4]
          have hnlt : ¬ Height.lt Height.zero lh :=
            fun hc => (Height.lt_iff_not_le Height.zero lh).mp hc h4
          refine ⟨?_, ?_, ?_, ?_, ?_, ?_, ?_, ?_⟩
          · exact ⟨fun hc => (nomatch hc),
              fun hc => absurd hc.2.2.2.1 hnlt⟩
          · intro cs hcs; cases hcs
          · intro hcon; omega
          · rintro ⟨-, hc⟩; omega
          · rintro ⟨-, -, hc⟩; omega
          · intro hcon; exact ⟨_, rfl, rfl⟩
          · rintro ⟨-, -, -, hc, -⟩; exact absurd hc hnlt
          · rintro ⟨-, -, -, hc, -⟩; exact absurd hc hnlt
        · rw [if_neg h4]
          have hlt : Height.lt Height.zero lh :=
            (Height.lt_iff_not_le Height.zero lh).mpr h4
          by_cases h5 : tl = TrustThreshold.ZERO
          · rw [if_pos h5]
            refine ⟨?_, ?_, ?_, ?_, ?_, ?_, ?_, ?_⟩
            · exact ⟨fun hc => (nomatch hc),
                fun hc => absurd h5 hc.2.2.2.2.1⟩
            · intro cs hcs; cases hcs
            · intro hcon; omega
            · rintro ⟨-, hc⟩; omega
            · rintro ⟨-, -, hc⟩; omega
            · rintro ⟨-, -, -, hc⟩
              exact absurd hc h4
            · intro hcon; exact ⟨_, rfl, rfl⟩
            · rintro ⟨-, -, -, -, hc, -⟩; exact absurd h5 hc
          · rw [if_neg h5]
            by_cases h6 : ps.isEmpty = true
            · rw [if_pos h6]
              have hps : ps = [] := (isEmpty_eq_true_iff ps).mp h6
              refine ⟨?_, ?_, ?_, ?_, ?_, ?_, ?_, ?_⟩
              · exact ⟨fun hc => (nomatch hc),
                  fun hc => absurd hps hc.2.2.2.2.2⟩
              · intro cs hcs; cases hcs
              · intro hcon; omega
              · rintro ⟨-, hc⟩; omega
              · rintro ⟨-, -, hc⟩; omega
              · rintro ⟨-, -, -, hc⟩
                exact absurd hc h4
              · rintro ⟨-, -, -, -, hc⟩; exact absurd hc h5
              · intro hcon; exact ⟨_, rfl, rfl⟩
            · rw [if_neg h6]
              have hps : ps ≠ [] := fun hc =>
                h6 ((isEmpty_eq_true_iff ps).mpr hc)
              refine ⟨?_, ?_, ?_, ?_, ?_, ?_, ?_, ?_⟩
              · exact ⟨fun hc => ⟨by omega, by omega, by omega, hlt, h5, hps⟩,
                  fun hc => rfl⟩
              · intro cs hcs
                injection hcs with hcs
                exact hcs.symm
              · intro hcon; omega
              · rintro ⟨-, hc⟩; omega
              · rintro ⟨-, -, hc⟩; omega
              · rintro ⟨-, -, -, hc⟩
                exact absurd hc h4
              · rintro ⟨-, -, -, -, hc⟩; exact absurd hc h5
              · rintro ⟨-, -, -, -, -, hc⟩; exact absurd hc hps

/-- C4 witness: the spec scenario parameters (trusting 64000s, unbonding
128000s, drift 3s, height (0, 10)) satisfy every invariant and construct the
expected record. -/
theorem C4_witness :
    Centauri.isOk (Centauri.ClientState.new ⟨"test-0"⟩ ⟨1, 3⟩ 64000 128000 3
      ⟨0, 10⟩ [⟨0⟩] [""]) = true :=
  (C4_new_characterization ⟨"test-0"⟩ ⟨1, 3⟩ 64000 128000 3 ⟨0, 10⟩ [⟨0⟩]
    [""]).1.mpr ⟨by decide, by decide, by decide, by decide, by decide,
      by decide⟩

/-- Modelled from the spec: the protobuf fraction carried in the wire
`trust_level` field (numerator and denominator). -/
structure Fraction where
  numerator : Nat
  denominator : Nat
deriving DecidableEq, Repr

/-- Modelled from the spec: `TrustThreshold::try_from(Fraction)` (in the ibc
crate, not under `src/`) — the threshold is a voting-power fraction of at
most one, so conversion accepts exactly the in-range fractions. -/
def TrustThreshold.fromFraction (f : Fraction) : Option TrustThreshold :=
  if f.denominator ≠ 0 ∧ f.numerator ≤ f.denominator then
    some ⟨f.numerator, f.denominator⟩
  else none

/-- Source `From<TrustThreshold> for Fraction`: copy the fields onto the wire. -/
def TrustThreshold.intoFraction (t : TrustThreshold) : Fraction :=
  ⟨t.numerator, t.denominator⟩

/-- Source `RawClientState`: the protobuf wire record. Optional fields may be
absent; wire durations are signed; the wire `frozen_height` field uses the
zero height for "not frozen". -/
structure RawClientState where
  chain_id : String
  trust_level : Option Fraction
  trusting_period : Option Int
  unbonding_period : Option Int
  max_clock_drift : Option Int
  frozen_height : Option Height
  latest_height : Option Height
  proof_specs : List ProofSpec
  upgrade_path : List String
deriving DecidableEq, Repr

/-- Source `Option::ok_or_else`: a present field, or the given error. -/
def requireField {α : Type} (o : Option α) (e : Error) : Except Error α :=
  match o with
  | some a => .ok a
  | none => .error e

/-- Modelled from the spec: converting a signed wire duration to an
in-memory duration fails on negative values, with the per-field
negative-duration error. -/
def durationFromRaw (i : Int) (e : Error) : Except Error Duration :=
  if i < 0 then .error e else .ok i.toNat

/-- Source `TryFrom<RawClientState> for ClientState`: note that the absence of
`trust_level` is reported through `Error::missing_trusting_period`, exactly
as in the source, and that a zero wire `frozen_height` decodes to `None`. -/
def RawClientState.tryIntoClientState (raw : RawClientState) :
    Except Error ClientState := do
  let trust_level ← requireField raw.trust_level Error.missingTrustingPeriod
  let frozen_height := raw.frozen_height.bind fun raw_height =>
    if raw_height = Height.zero then none else some raw_height
  let tl ← requireField (TrustThreshold.fromFraction trust_level)
    (Error.invalidTrustThreshold "invalid trust threshold fraction")
  let tp ← requireField raw.trusting_period Error.missingTrustingPeriod
  let trusting_period ← durationFromRaw tp Error.negativeTrustingPeriod
  let ub ← requireField raw.unbonding_period Error.missingUnbondingPeriod
  let unbonding_period ← durationFromRaw ub Error.negativeUnbondingPeriod
  let mcd ← requireField raw.max_clock_drift Error.missingMaxClockDrift
  let max_clock_drift ← durationFromRaw mcd Error.negativeMaxClockDrift
  let latest_height ← requireField raw.latest_height Error.missingLatestHeight
  Except.ok
    { chain_id := ChainId.from_string raw.chain_id
      trust_level := tl
      trusting_period, unbonding_period, max_clock_drift, latest_height
      proof_specs := raw.proof_specs
      upgrade_path := raw.upgrade_path
      frozen_height }

/-- Source `From<ClientState> for RawClientState`: every field is written as
present; `frozen_height` is written as the zero height when `None`. -/
def ClientState.intoRaw (cs : ClientState) : RawClientState :=
  { chain_id := cs.chain_id.to_string
    trust_level := some cs.trust_level.intoFraction
    trusting_period := some (Int.ofNat cs.trusting_period)
    unbonding_period := some (Int.ofNat cs.unbonding_period)
    max_clock_drift := some (Int.ofNat cs.max_clock_drift)
    frozen_height := some (cs.frozen_height.getD Height.zero)
    latest_height := some cs.latest_height
    proof_specs := cs.proof_specs
    upgrade_path := cs.upgrade_path }

/-- A valid client state per the data-model invariants: positive periods in
order, positive latest height, a trust-level fraction strictly between zero
and one, non-empty proof specs, and a non-zero frozen height if frozen. -/
def ClientState.valid (cs : ClientState) : Prop :=
  0 < cs.trusting_period ∧ 0 < cs.unbonding_period ∧
  cs.trusting_period < cs.unbonding_period ∧
  Height.lt Height.zero cs.latest_height ∧
  0 < cs.trust_level.numerator ∧
  cs.trust_level.numerator < cs.trust_level.denominator ∧
  cs.proof_specs ≠ [] ∧
  cs.frozen_height ≠ some Height.zero

instance (cs : ClientState) : Decidable cs.valid := by
  unfold ClientState.valid; infer_instance

/-- C7: decoding the encoding of a valid client state yields it back,
including `frozen_height`: written as the zero height on the wire when
`None` in memory and read back as `None` when the wire value is the zero
height. -/
theorem C7_roundtrip (cs : ClientState) (hval : cs.valid) :
    RawClientState.tryIntoClientState (ClientState.intoRaw cs) = .ok cs := by
  obtain ⟨-, -, -, -, hnum, hden, -, hfz⟩ := hval
  have hd0 : cs.trust_level.denominator ≠ 0 := by omega
  have hnd : cs.trust_level.numerator ≤ cs.trust_level.denominator := by
    omega
  cases cs with
  | mk cid tl tp ub mcd lh ps upg fz =>
    cases fz with
    | none =>
      simp only [RawClientState.tryIntoClientState, ClientState.intoRaw,
        requireField, durationFromRaw, TrustThreshold.fromFraction,
        TrustThreshold.intoFraction, ChainId.from_string, ChainId.to_string,
        Option.getD, Option.bind, Bind.bind, Except.bind, if_pos, if_neg]
      have htp : ¬ (Int.ofNat tp < 0) := Int.not_lt.mpr (Int.ofNat_nonneg tp)
      have hub : ¬ (Int.ofNat ub < 0) := Int.not_lt.mpr (Int.ofNat_nonneg ub)
      have hmc : ¬ (Int.ofNat mcd < 0) :=
        Int.not_lt.mpr (Int.ofNat_nonneg mcd)
      simp only [if_pos (And.intro hd0 hnd), if_neg htp, if_neg hub,
        if_neg hmc]
      rfl
    | some f =>
      have hf : f ≠ Height.zero := by
        intro hc
        exact hfz (by rw [hc])
      simp only [RawClientState.tryIntoClientState, ClientState.intoRaw,
        requireField, durationFromRaw, TrustThreshold.fromFraction,
        TrustThreshold.intoFraction, ChainId.from_string, ChainId.to_string,
        Option.getD, Option.bind, Bind.bind, Except.bind]
      have htp : ¬ (Int.ofNat tp < 0) := Int.not_lt.mpr (Int.ofNat_nonneg tp)
      have hub : ¬ (Int.ofNat ub < 0) := Int.not_lt.mpr (Int.ofNat_nonneg ub)
      have hmc : ¬ (Int.ofNat mcd < 0) :=
        Int.not_lt.mpr (Int.ofNat_nonneg mcd)
      simp only [if_pos (And.intro hd0 hnd), if_neg hf, if_neg htp,
        if_neg hub, if_neg hmc]
      rfl

/-- C7 witness: the frozen fixture is valid and round-trips through the wire
format. -/
theorem C7_witness :
    Centauri.ClientState.valid Centauri.frozenState ∧
    Centauri.RawClientState.tryIntoClientState
        (Centauri.ClientState.intoRaw Centauri.frozenState) =
      .ok Centauri.frozenState :=
  ⟨by decide, C7_roundtrip Centauri.frozenState (by decide)⟩

/-- A complete raw client state, every optional field present, which decodes
successfully. -/
def rawBase : RawClientState :=
  { chain_id := "test-0"
    trust_level := some ⟨1, 3⟩
    trusting_period := some 64000
    unbonding_period := some 128000
    max_clock_drift := some 3
    frozen_height := some Height.zero
    latest_height := some ⟨0, 10⟩
    proof_specs := [⟨0⟩]
    upgrade_path := [""] }

/-- C8: with exactly one required field absent the decode fails, and the
errors for `trusting_period`, `unbonding_period`, `max_clock_drift` and
`latest_height` are distinct per field — but an absent `trust_level` is
reported with the same `MissingTrustingPeriod` error as an absent
`trusting_period`, so the claimed per-field distinctness fails for that
pair. -/
theorem C8_missing_field_errors :
    RawClientState.tryIntoClientState { rawBase with trust_level := none } =
      .error Error.missingTrustingPeriod ∧
    RawClientState.tryIntoClientState
        { rawBase with trusting_period := none } =
      .error Error.missingTrustingPeriod ∧
    RawClientState.tryIntoClientState
        { rawBase with unbonding_period := none } =
      .error Error.missingUnbondingPeriod ∧
    RawClientState.tryIntoClientState
        { rawBase with max_clock_drift := none } =
      .error Error.missingMaxClockDrift ∧
    RawClientState.tryIntoClientState
        { rawBase with latest_height := none } =
      .error Error.missingLatestHeight ∧
    isOk (RawClientState.tryIntoClientState rawBase) = true := by
  decide

end Centauri
